import Mathlib

/-!
Verification development for the k8s-pvc-tagger controller entry point
(`main.go`).  The Go source is shallowly embedded: flag parsing, the
startup validation sequence, the leader-election configuration, the
namespace dispatch loop, the status handler, and small transition systems
for the leadership lifecycle and the cancellation/lease-release
interleaving.
-/

namespace PVCTagger

/-! ## Characters used by the JSON model

Brace and quote characters are built from code points so they can be
used freely in definitions. -/

def chLBrace : Char := Char.ofNat 123

def chRBrace : Char := Char.ofNat 125

def chQuote : Char := Char.ofNat 34

def chBackslash : Char := Char.ofNat 92

/-! ## Model of `encoding/json.Unmarshal` into `map[string]string`

`main.go` line 129 calls `json.Unmarshal([]byte(defaultTagsString),
&defaultTags)` where `defaultTags` is a `map[string]string`.  The Go
standard library is external to the repository; we model the fragment it
is used on: a JSON object whose keys and values are plain
(escape-free) strings.  Any other input is a parse error, as it would be
for `Unmarshal` into `map[string]string` (escaped strings are rejected
by the model rather than decoded; no theorem below depends on escapes).
Later duplicate keys overwrite earlier ones, as they do for a Go map. -/

def isJsonWs (c : Char) : Bool :=
  c = ' ' || c = '\t' || c = '\n' || c = '\r'

def skipWs : List Char → List Char
  | [] => []
  | c :: cs => if isJsonWs c then skipWs cs else c :: cs

/-- Reads the body of a JSON string after the opening quote; returns the
content and the remaining input after the closing quote.  Escape
sequences are outside the modelled fragment. -/
def parseStringBody : List Char → Option (List Char × List Char)
  | [] => none
  | c :: cs =>
    if c = chQuote then some ([], cs)
    else if c = chBackslash then none
    else
      match parseStringBody cs with
      | none => none
      | some (acc, rest) => some (c :: acc, rest)

/-- Reads one `"key" : "value"` member. -/
def parseMember (cs : List Char) : Option ((String × String) × List Char) :=
  match skipWs cs with
  | [] => none
  | c :: cs₁ =>
    if c = chQuote then
      match parseStringBody cs₁ with
      | none => none
      | some (key, cs₂) =>
        match skipWs cs₂ with
        | [] => none
        | d :: cs₃ =>
          if d = ':' then
            match skipWs cs₃ with
            | [] => none
            | e :: cs₄ =>
              if e = chQuote then
                match parseStringBody cs₄ with
                | none => none
                | some (val, cs₅) =>
                  some ((String.mk key, String.mk val), cs₅)
              else none
          else none
    else none

/-- Reads the members following the first one: either the closing brace
or a comma and a further member.  Fuel bounds the recursion by the input
length. -/
def parseMoreMembers (fuel : Nat) (acc : List (String × String)) (cs : List Char) :
    Option (List (String × String) × List Char) :=
  match fuel with
  | 0 => none
  | fuel + 1 =>
    match skipWs cs with
    | [] => none
    | c :: cs₁ =>
      if c = chRBrace then some (acc, cs₁)
      else if c = ',' then
        match parseMember cs₁ with
        | none => none
        | some (kv, cs₂) => parseMoreMembers fuel (acc ++ [kv]) cs₂
      else none

/-- Inserts a key/value pair into an association list, overwriting an
existing binding of the same key (Go map assignment). -/
def upsert (m : List (String × String)) (k v : String) : List (String × String) :=
  match m with
  | [] => [(k, v)]
  | (k₀, v₀) :: rest => if k₀ = k then (k, v) :: rest else (k₀, v₀) :: upsert rest k v

def toStringMap (pairs : List (String × String)) : List (String × String) :=
  pairs.foldl (fun m kv => upsert m kv.1 kv.2) []

def jsonUnmarshalStringMap (s : String) : Except String (List (String × String)) :=
  let cs := skipWs s.toList
  match cs with
  | [] => .error "unexpected end of JSON input"
  | c :: cs₁ =>
    if c = chLBrace then
      match skipWs cs₁ with
      | [] => .error "unexpected end of JSON input"
      | d :: cs₂ =>
        if d = chRBrace then
          if (skipWs cs₂).isEmpty then .ok [] else .error "trailing data"
        else
          match parseMember (d :: cs₂) with
          | none => .error "invalid character"
          | some (kv, cs₃) =>
            match parseMoreMembers s.length [kv] cs₃ with
            | none => .error "invalid character"
            | some (pairs, cs₄) =>
              if (skipWs cs₄).isEmpty then .ok (toStringMap pairs)
              else .error "trailing data"
    else .error "invalid character"

/-! ## Spec-modelled validators

`regexpAWSRegion`, `getMetadataRegion`, `getCurrentNamespace` and the
tag-constraint checks live in source files of this repository that are
not under `src/` (the cloud and cluster client files); only their call
sites in `main.go` are available.  They are modelled from the spec. -/

/-- Splits a character list at every occurrence of the separator.  This
is Go `strings.Split` for a one-character separator: `strings.Split("",
sep)` is `[""]`, adjacent separators produce empty entries. -/
def splitOnChar (sep : Char) : List Char → List (List Char)
  | [] => [[]]
  | c :: cs =>
    let rest := splitOnChar sep cs
    if c = sep then [] :: rest
    else
      match rest with
      | [] => [[c]]
      | r :: rs => (c :: r) :: rs

/-- Go `strings.Split(s, sep)` for a one-character separator. -/
def goSplit (s : String) (sep : Char) : List String :=
  (splitOnChar sep s.toList).map String.mk

def isLowerAlpha (c : Char) : Bool := 'a' ≤ c && c ≤ 'z'

def isDigitCh (c : Char) : Bool := '0' ≤ c && c ≤ '9'

/-- Modelled from the spec: the region pattern `regexpAWSRegion` is in
the cloud-client source file absent from `src/`.  The spec requires the
region to be "validated against the cloud region-name syntax": a
two-letter area code, one or more lowercase words, and a trailing
number, separated by dashes (for example `us-east-1`, `us-gov-west-1`).
The empty string does not match. -/
def matchesAWSRegion (s : String) : Bool :=
  match goSplit s '-' with
  | [] => false
  | first :: rest =>
    match rest.getLast? with
    | none => false
    | some last =>
      first.length = 2 && first.toList.all isLowerAlpha &&
      decide (1 ≤ last.length) && last.toList.all isDigitCh &&
      decide (1 ≤ rest.dropLast.length) &&
      rest.dropLast.all (fun p => decide (1 ≤ p.length) && p.toList.all isLowerAlpha)

/-- Modelled from the spec: the provider tag-character set (the
constraint check itself is in a source file absent from `src/`).  The
provider allows letters, digits, spaces and `_ . : / = + - @`. -/
def isAllowedTagChar (c : Char) : Bool :=
  c.isAlphanum || c = ' ' || c = '_' || c = '.' || c = ':' || c = '/' ||
  c = '=' || c = '+' || c = '-' || c = '@'

/-- Modelled from the spec: provider syntactic limits on tag keys (max
length 128, allowed character set, reserved `aws:` key space). -/
def isValidTagKey (k : String) : Bool :=
  decide (1 ≤ k.length) && decide (k.length ≤ 128) &&
  k.toList.all isAllowedTagChar && !(String.startsWith k "aws:")

/-- Modelled from the spec: provider syntactic limits on tag values (max
length 256 and the allowed character set). -/
def isValidTagValue (v : String) : Bool :=
  decide (v.length ≤ 256) && v.toList.all isAllowedTagChar

/-! ## Flag parsing (`main.go` lines 104-115)

Each `flag.StringVar` call gives a flag a default value; `flag.Parse`
overrides the default with the command-line value when the flag is
supplied.  A `FlagInputs` field of `none` means the flag was not given
on the command line.  Three defaults read the process environment, and
the `lease-id` default is the freshly generated UUID
(`uuid.New().String()`, line 107). -/

structure FlagInputs where
  kubeconfig : Option String := none
  kubeContext : Option String := none
  region : Option String := none
  leaseID : Option String := none
  leaseLockName : Option String := none
  leaseLockNamespace : Option String := none
  defaultTagsString : Option String := none
  annotationPrefixFlag : Option String := none
  watchNamespace : Option String := none
  statusPort : Option String := none
  metricsPort : Option String := none
  deriving Repr, DecidableEq

structure Env where
  awsRegion : String := ""
  namespaceEnv : String := ""
  watchNamespaceEnv : String := ""
  deriving Repr, DecidableEq

structure Flags where
  kubeconfig : String
  kubeContext : String
  region : String
  leaseID : String
  leaseLockName : String
  leaseLockNamespace : String
  defaultTagsString : String
  annotationPrefixFlag : String
  watchNamespace : String
  statusPort : String
  metricsPort : String
  deriving Repr, DecidableEq

/-- `flag.StringVar`/`flag.Parse` of `main.go` lines 104-115.
`freshUUID` is the value of `uuid.New().String()` generated once at
process start. -/
def parseFlags (e : Env) (freshUUID : String) (f : FlagInputs) : Flags where
  kubeconfig := f.kubeconfig.getD ""
  kubeContext := f.kubeContext.getD ""
  region := f.region.getD e.awsRegion
  leaseID := f.leaseID.getD freshUUID
  leaseLockName := f.leaseLockName.getD "k8s-aws-ebs-tagger"
  leaseLockNamespace := f.leaseLockNamespace.getD e.namespaceEnv
  defaultTagsString := f.defaultTagsString.getD ""
  annotationPrefixFlag := f.annotationPrefixFlag.getD "aws-ebs-tagger"
  watchNamespace := f.watchNamespace.getD e.watchNamespaceEnv
  statusPort := f.statusPort.getD "8000"
  metricsPort := f.metricsPort.getD "8001"

/-! ## Startup sequence (`main.go` lines 117-161) -/

inductive FatalError where
  /-- line 118: missing lease-lock-name -/
  | missingLeaseLockName
  /-- line 123: missing lease-lock-namespace -/
  | missingLeaseLockNamespace
  /-- line 131: default-tags are not valid json key/value pairs -/
  | invalidDefaultTags (msg : String)
  /-- line 146: given AWS_REGION does not match the region format -/
  | invalidRegion
  /-- line 154: nil AWS session, `os.Exit(1)` -/
  | nilAWSSession
  /-- line 159: unable to create the kubernetes client -/
  | kubeClientError
  deriving Repr, DecidableEq

structure AppConfig where
  leaseLockName : String
  leaseLockNamespace : String
  defaultTags : List (String × String)
  region : String
  leaseID : String
  watchNamespace : String
  annotationPrefixFlag : String
  deriving Repr, DecidableEq

/-- The startup checks of `main` in source order: lease lock name (line
117), lease lock namespace with fallback to the process namespace (lines
120-125), default-tags JSON parsing (lines 127-133), region resolution
from instance metadata and validation (lines 136-147), cloud session
(lines 148-155) and cluster client construction (lines 157-161).
`currentNamespace` models `getCurrentNamespace()`; `metadataRegion`
models `getMetadataRegion()` whose error is discarded at line 138 (an
unresolvable region yields the empty string).  The first failing check
terminates the process. -/
def mainStartup (fl : Flags) (currentNamespace : String) (metadataRegion : String)
    (awsSessionOk : Bool) (kubeClientOk : Bool) : Except FatalError AppConfig :=
  if fl.leaseLockName = "" then .error .missingLeaseLockName
  else
    let ns := if fl.leaseLockNamespace = "" then currentNamespace else fl.leaseLockNamespace
    if ns = "" then .error .missingLeaseLockNamespace
    else
      match (if fl.defaultTagsString = "" then Except.ok [] else jsonUnmarshalStringMap fl.defaultTagsString) with
      | .error msg => .error (.invalidDefaultTags msg)
      | .ok tags =>
        let region := if fl.region = "" then metadataRegion else fl.region
        if matchesAWSRegion region then
          if awsSessionOk then
            if kubeClientOk then
              .ok { leaseLockName := fl.leaseLockName
                    leaseLockNamespace := ns
                    defaultTags := tags
                    region := region
                    leaseID := fl.leaseID
                    watchNamespace := fl.watchNamespace
                    annotationPrefixFlag := fl.annotationPrefixFlag }
            else .error .kubeClientError
          else .error .nilAWSSession
        else .error .invalidRegion

/-! ## Namespace dispatch (`main.go` lines 182-192)

The `run` closure splits the watch-namespace string on commas when it is
non-empty, otherwise uses the single sentinel `""` meaning all
namespaces, and starts `go runWatchNamespaceTask(ctx, ns)` once per
entry. -/

structure DispatcherTask where
  ns : String
  deriving Repr, DecidableEq

/-- The `namespaces` slice computed by `run`: `strings.Split` on the
comma for a non-empty string, `append(nil, "")` otherwise. -/
def runNamespaces (watchNamespace : String) : List String :=
  if watchNamespace ≠ "" then goSplit watchNamespace ',' else [""]

/-- The dispatcher tasks spawned by the `for` loop of `run`, one per
entry of `namespaces`, in order. -/
def run (watchNamespace : String) : List DispatcherTask :=
  (runNamespaces watchNamespace).map DispatcherTask.mk

/-! ## Leader-election configuration (`main.go` lines 212-235) -/

structure LeaseLock where
  name : String
  lockNamespace : String
  identity : String
  deriving Repr, DecidableEq

structure LeaderElectionConfig where
  lock : LeaseLock
  releaseOnCancel : Bool
  leaseDurationSec : Nat
  renewDeadlineSec : Nat
  retryPeriodSec : Nat
  deriving Repr, DecidableEq

/-- The `resourcelock.LeaseLock` and `leaderelection.LeaderElectionConfig`
literals of `main.go` (durations converted from `time.Duration` to
seconds: `60 * time.Second`, `15 * time.Second`, `5 * time.Second`). -/
def mainLeaderElectionConfig (cfg : AppConfig) : LeaderElectionConfig where
  lock := { name := cfg.leaseLockName
            lockNamespace := cfg.leaseLockNamespace
            identity := cfg.leaseID }
  releaseOnCancel := true
  leaseDurationSec := 60
  renewDeadlineSec := 15
  retryPeriodSec := 5

/-- Outcome of `main` after the startup sequence: either a fatal exit,
or the program reaches `leaderelection.RunOrDie` with this configuration
and with the `run` closure that will spawn these dispatcher tasks on
`OnStartedLeading`. -/
inductive MainOutcome where
  | fatal (e : FatalError)
  | elect (cfg : LeaderElectionConfig) (tasks : List DispatcherTask)
  deriving Repr, DecidableEq

def mainProgram (fl : Flags) (currentNamespace : String) (metadataRegion : String)
    (awsSessionOk : Bool) (kubeClientOk : Bool) : MainOutcome :=
  match mainStartup fl currentNamespace metadataRegion awsSessionOk kubeClientOk with
  | .error e => .fatal e
  | .ok cfg => .elect (mainLeaderElectionConfig cfg) (run cfg.watchNamespace)

/-! ## Status handler (`main.go` lines 256-269)

`statusHandler` writes `http.StatusNotImplemented` (501) and the body
`method is not implemented` for a non-GET request; for a GET it writes
the body `OK`, which carries the implicit `http.StatusOK` (200). -/

structure HttpResponse where
  status : Nat
  body : String
  deriving Repr, DecidableEq

def statusHandler (method : String) : HttpResponse :=
  if method ≠ "GET" then { status := 501, body := "method is not implemented" }
  else { status := 200, body := "OK" }

/-! ## Leadership lifecycle (`main.go` lines 236-252)

Process-level phases of `main`.  Fatal startup errors exit non-zero
before `RunOrDie` is entered; once the election loop runs the process is
in standby until `OnStartedLeading` fires; after having led, the only
way out in `main.go` is `OnStoppedLeading`, which runs `os.Exit(0)`
(lines 240-243).  `OnNewLeader` only logs and changes nothing. -/

inductive ProcPhase where
  | startup
  | standby
  | leading
  | exited (code : Nat)
  deriving Repr, DecidableEq

inductive ProcStep : ProcPhase → ProcPhase → Prop
  /-- a `log.Fatalln` or `os.Exit(1)` path of the startup sequence -/
  | fatalStartup : ProcStep .startup (.exited 1)
  /-- startup succeeded and `leaderelection.RunOrDie` was entered -/
  | startElection : ProcStep .startup .standby
  /-- `OnStartedLeading` fired -/
  | becomeLeader : ProcStep .standby .leading
  /-- `OnStoppedLeading` fired: `os.Exit(0)` -/
  | stopLeading : ProcStep .leading (.exited 0)

/-! ## Cancellation versus lease release (`main.go` lines 194-252, 271-280)

After `OnStartedLeading`, the dispatcher goroutines spawned by `run`
each block in `runWatchNamespaceTask` on `<-ctx.Done()` and only then
return.  Cancelling the root context (signal handler lines 204-208, or a
renew failure inside the election loop) simultaneously enables two
independent events: each dispatcher goroutine may observe `ctx.Done()`
and exit, and the election loop may release the lease
(`ReleaseOnCancel: true`).  `main.go` contains no synchronisation (no
wait group or join) ordering the release after the dispatcher exits, so
the step relation places no such precondition on `releaseLease`. -/

structure CoordState where
  cancelled : Bool
  dispatchersRunning : Nat
  leaseHeld : Bool
  deriving Repr, DecidableEq

inductive CoordStep : CoordState → CoordState → Prop
  /-- the signal handler (or a renew failure / step-down) cancels the root context -/
  | cancel (s : CoordState) :
      CoordStep s { s with cancelled := true }
  /-- a dispatcher goroutine observes `<-ctx.Done()` and returns -/
  | dispatcherExit (s : CoordState) (hc : s.cancelled = true)
      (hr : 0 < s.dispatchersRunning) :
      CoordStep s { s with dispatchersRunning := s.dispatchersRunning - 1 }
  /-- the election loop observes the cancelled context and, because
  `ReleaseOnCancel` is set, releases the lease lock -/
  | releaseLease (s : CoordState) (hc : s.cancelled = true)
      (hl : s.leaseHeld = true) :
      CoordStep s { s with leaseHeld := false }

def CoordReachable : CoordState → CoordState → Prop :=
  Relation.ReflTransGen CoordStep

/-- The state right after `OnStartedLeading` ran the `run` closure: the
lease is held, the context is not yet cancelled, and one dispatcher
goroutine runs per entry of the namespace list. -/
def initLeading (watchNamespace : String) : CoordState where
  cancelled := false
  dispatchersRunning := (run watchNamespace).length
  leaseHeld := true

/-! ## Shared concrete configurations and inversion lemmas -/

/-- Projects the three election durations out of a `main` outcome. -/
def electionDurations : MainOutcome → Option (Nat × Nat × Nat)
  | .fatal _ => none
  | .elect cfg _ => some (cfg.leaseDurationSec, cfg.renewDeadlineSec, cfg.retryPeriodSec)

/-- A concrete parsed flag set that passes every startup check. -/
def flagsA : Flags where
  kubeconfig := ""
  kubeContext := ""
  region := "us-east-1"
  leaseID := "idA"
  leaseLockName := "lockA"
  leaseLockNamespace := "nsA"
  defaultTagsString := ""
  annotationPrefixFlag := "aws-ebs-tagger"
  watchNamespace := "a"
  statusPort := "8000"
  metricsPort := "8001"

/-- A second concrete flag set, differing from `flagsA` in every
configurable respect, that also passes every startup check. -/
def flagsB : Flags where
  kubeconfig := "kc"
  kubeContext := "ctx"
  region := "eu-west-2"
  leaseID := "idB"
  leaseLockName := "lockB"
  leaseLockNamespace := "nsB"
  defaultTagsString := "\x7b\x22team\x22:\x22infra\x22\x7d"
  annotationPrefixFlag := "acme"
  watchNamespace := "b1,b2"
  statusPort := "9000"
  metricsPort := "9001"

/-- `flagsA` with the region flag and `AWS_REGION` unset. -/
def flagsNoRegion : Flags := { flagsA with region := "" }

/-- The configuration produced by a successful startup on
`flagsNoRegion` with metadata region `us-east-1`. -/
def appC5 : AppConfig where
  leaseLockName := "lockA"
  leaseLockNamespace := "nsA"
  defaultTags := []
  region := "us-east-1"
  leaseID := "idA"
  watchNamespace := "a"
  annotationPrefixFlag := "aws-ebs-tagger"

/-- Inverts a successful startup into the facts the per-claim theorems
need: which checks passed and how each configuration field was filled. -/
theorem mainStartup_ok_inversion (fl : Flags) (cns mr : String) (ak kk : Bool)
    (app : AppConfig) (h : mainStartup fl cns mr ak kk = .ok app) :
    fl.leaseLockName ≠ "" ∧
    app.leaseLockName = fl.leaseLockName ∧
    app.leaseLockNamespace = (if fl.leaseLockNamespace = "" then cns else fl.leaseLockNamespace) ∧
    app.leaseLockNamespace ≠ "" ∧
    (∃ m, (if fl.defaultTagsString = "" then Except.ok [] else jsonUnmarshalStringMap fl.defaultTagsString) = Except.ok m ∧
      app.defaultTags = m) ∧
    app.region = (if fl.region = "" then mr else fl.region) ∧
    matchesAWSRegion app.region = true ∧
    app.leaseID = fl.leaseID ∧
    app.watchNamespace = fl.watchNamespace := by
  by_cases h1 : fl.leaseLockName = ""
  · simp [mainStartup, h1] at h
  · by_cases h2 : (if fl.leaseLockNamespace = "" then cns else fl.leaseLockNamespace) = ""
    · simp [mainStartup, h1, h2] at h
    · cases htags : (if fl.defaultTagsString = "" then Except.ok [] else jsonUnmarshalStringMap fl.defaultTagsString) with
      | error msg => simp [mainStartup, h1, h2, htags] at h
      | ok m =>
        by_cases h3 : matchesAWSRegion (if fl.region = "" then mr else fl.region) = true
        · cases ak with
          | false => simp [mainStartup, h1, h2, htags, h3] at h
          | true =>
            cases kk with
            | false => simp [mainStartup, h1, h2, htags, h3] at h
            | true =>
              simp [mainStartup, h1, h2, htags, h3] at h
              subst h
              exact ⟨h1, rfl, rfl, h2, ⟨m, rfl, rfl⟩, rfl, h3, rfl, rfl⟩
        · simp [mainStartup, h1, h2, htags, h3] at h

/-- If the resolved region fails the syntax check, the startup sequence
terminates with a fatal error (the region error when the earlier checks
pass, an earlier fatal error otherwise). -/
theorem mainStartup_error_of_invalid_region (fl : Flags) (cns mr : String)
    (ak kk : Bool)
    (h : matchesAWSRegion (if fl.region = "" then mr else fl.region) = false) :
    ∃ e, mainStartup fl cns mr ak kk = .error e := by
  by_cases h1 : fl.leaseLockName = ""
  · exact ⟨.missingLeaseLockName, by simp [mainStartup, h1]⟩
  · by_cases h2 : (if fl.leaseLockNamespace = "" then cns else fl.leaseLockNamespace) = ""
    · exact ⟨.missingLeaseLockNamespace, by simp [mainStartup, h1, h2]⟩
    · cases htags : (if fl.defaultTagsString = "" then Except.ok [] else jsonUnmarshalStringMap fl.defaultTagsString) with
      | error msg => exact ⟨.invalidDefaultTags msg, by simp [mainStartup, h1, h2, htags]⟩
      | ok m => exact ⟨.invalidRegion, by simp [mainStartup, h1, h2, htags, h]⟩

theorem mainProgram_fatal_of_error (fl : Flags) (cns mr : String) (ak kk : Bool)
    (e : FatalError) (h : mainStartup fl cns mr ak kk = .error e) :
    mainProgram fl cns mr ak kk = .fatal e := by
  simp [mainProgram, h]

theorem mainProgram_elect_inversion (fl : Flags) (cns mr : String) (ak kk : Bool)
    (cfg : LeaderElectionConfig) (tasks : List DispatcherTask)
    (h : mainProgram fl cns mr ak kk = .elect cfg tasks) :
    ∃ app, mainStartup fl cns mr ak kk = .ok app ∧
      cfg = mainLeaderElectionConfig app ∧ tasks = run app.watchNamespace := by
  cases hs : mainStartup fl cns mr ak kk with
  | error e => rw [mainProgram, hs] at h; cases h
  | ok app =>
    rw [mainProgram, hs] at h
    cases h
    exact ⟨app, rfl, rfl, rfl⟩

/-! ## Claim theorems -/

/-- C1: the claim demands that the lease is never released while a
dispatcher task is still running.  The code violates it: from the state
in which the process leads with one dispatcher goroutine (the
all-namespaces sentinel), cancelling the root context enables the
election loop to release the lease (`ReleaseOnCancel`) before the
dispatcher goroutine has observed `ctx.Done()`, so a state with the
lease released and a dispatcher still running is reachable. -/
theorem C1_lease_released_while_dispatcher_running :
    ∃ s : CoordState, CoordReachable (initLeading "") s ∧
      s.leaseHeld = false ∧ 0 < s.dispatchersRunning := by
  refine ⟨⟨true, 1, false⟩, ?_, rfl, Nat.one_pos⟩
  have h0 : initLeading "" = ⟨false, 1, true⟩ := rfl
  have h1 : CoordStep (⟨false, 1, true⟩ : CoordState) ⟨true, 1, true⟩ :=
    CoordStep.cancel ⟨false, 1, true⟩
  have h2 : CoordStep (⟨true, 1, true⟩ : CoordState) ⟨true, 1, false⟩ :=
    CoordStep.releaseLease ⟨true, 1, true⟩ rfl rfl
  rw [CoordReachable, h0]
  exact Relation.ReflTransGen.head h1 (Relation.ReflTransGen.single h2)

/-- C2: from the leading phase, every reachable process phase is either
still leading or a clean exit with status zero — losing leadership after
having led runs `OnStoppedLeading`, which is `os.Exit(0)`, and no path
from the leading phase reaches a non-zero exit. -/
theorem C2_leadership_loss_exits_zero (p : ProcPhase)
    (h : Relation.ReflTransGen ProcStep .leading p) :
    p = .leading ∨ p = .exited 0 := by
  induction h with
  | refl => exact Or.inl rfl
  | tail _ step ih =>
    cases ih with
    | inl hb => subst hb; cases step; exact Or.inr rfl
    | inr hb => subst hb; cases step

theorem C2_leadership_loss_exits_zero_witness :
    ProcPhase.exited 0 = .leading ∨ ProcPhase.exited 0 = .exited 0 :=
  C2_leadership_loss_exits_zero (.exited 0)
    (Relation.ReflTransGen.single ProcStep.stopLeading)

/-- C3: with an empty watch-namespace string, `run` starts exactly one
dispatcher task carrying the all-namespaces sentinel; with a non-empty
string it starts exactly one task per comma-separated entry, in order. -/
theorem C3_one_dispatcher_per_namespace (ws : String) :
    (ws = "" → run ws = [⟨""⟩]) ∧
    (ws ≠ "" → (run ws).map DispatcherTask.ns = goSplit ws ',' ∧
      (run ws).length = (goSplit ws ',').length) := by
  constructor
  · intro h
    simp [run, runNamespaces, h]
  · intro h
    refine ⟨?_, ?_⟩ <;> simp [run, runNamespaces, h, Function.comp_def]

theorem C3_one_dispatcher_per_namespace_witness :
    run "" = [⟨""⟩] ∧
    ((run "a,b").map DispatcherTask.ns = goSplit "a,b" ',' ∧
      (run "a,b").length = (goSplit "a,b" ',').length) :=
  ⟨(C3_one_dispatcher_per_namespace "").1 rfl,
   (C3_one_dispatcher_per_namespace "a,b").2 (by decide)⟩

/-- C4 counterexample: two complete process configurations that differ
in every configurable field produce the same three election durations,
60, 15 and 5 seconds — the durations are fixed literals in the
leader-election setup, not external configuration values. -/
theorem C4_durations_ignore_configuration :
    flagsA ≠ flagsB ∧
    electionDurations (mainProgram flagsA "" "" true true) = some (60, 15, 5) ∧
    electionDurations (mainProgram flagsB "" "" true true) = some (60, 15, 5) := by
  refine ⟨by decide, ?_, ?_⟩ <;> rfl

/-- C4 amended: the lease duration, renew deadline and retry period used
by the leader-election configuration are the fixed constants 60, 15 and
5 seconds for every startup configuration; no configuration value
affects them. -/
theorem C4_durations_are_fixed_constants (cfg : AppConfig) :
    (mainLeaderElectionConfig cfg).leaseDurationSec = 60 ∧
    (mainLeaderElectionConfig cfg).renewDeadlineSec = 15 ∧
    (mainLeaderElectionConfig cfg).retryPeriodSec = 5 :=
  ⟨rfl, rfl, rfl⟩

/-- C8: the status handler answers a GET request with a success response
and any other method with a 501 "not implemented" response; it is a
function of the request method alone. -/
theorem C8_status_handler (method : String) :
    (method = "GET" → statusHandler method = ⟨200, "OK"⟩) ∧
    (method ≠ "GET" → statusHandler method = ⟨501, "method is not implemented"⟩) := by
  constructor <;> intro h <;> simp [statusHandler, h]

theorem C8_status_handler_witness :
    statusHandler "GET" = ⟨200, "OK"⟩ ∧
    statusHandler "POST" = ⟨501, "method is not implemented"⟩ :=
  ⟨(C8_status_handler "GET").1 rfl, (C8_status_handler "POST").2 (by decide)⟩

/-- C5: when the region flag and environment are unset, a successful
startup carries the instance-metadata region; every successful startup
carries a region that passes the syntax check; and when the resolved
region fails the check, `main` terminates fatally, never reaching the
leader-election (and hence reconciliation) stage. -/
theorem C5_region_resolution_and_validation (fl : Flags) (cns mr : String)
    (ak kk : Bool) :
    (fl.region = "" → ∀ app, mainStartup fl cns mr ak kk = .ok app →
      app.region = mr) ∧
    (∀ app, mainStartup fl cns mr ak kk = .ok app →
      matchesAWSRegion app.region = true) ∧
    (matchesAWSRegion (if fl.region = "" then mr else fl.region) = false →
      ∃ e, mainProgram fl cns mr ak kk = .fatal e) := by
  refine ⟨?_, ?_, ?_⟩
  · intro hr app h
    have hreg := (mainStartup_ok_inversion fl cns mr ak kk app h).2.2.2.2.2.1
    rw [hreg, if_pos hr]
  · intro app h
    exact (mainStartup_ok_inversion fl cns mr ak kk app h).2.2.2.2.2.2.1
  · intro hinv
    obtain ⟨e, he⟩ := mainStartup_error_of_invalid_region fl cns mr ak kk hinv
    exact ⟨e, mainProgram_fatal_of_error fl cns mr ak kk e he⟩

theorem C5_region_resolution_and_validation_witness :
    appC5.region = "us-east-1" ∧
    matchesAWSRegion appC5.region = true ∧
    (∃ e, mainProgram flagsNoRegion "cur" "bogus" true true = .fatal e) :=
  ⟨(C5_region_resolution_and_validation flagsNoRegion "cur" "us-east-1" true true).1
      rfl appC5 rfl,
   (C5_region_resolution_and_validation flagsNoRegion "cur" "us-east-1" true true).2.1
      appC5 rfl,
   (C5_region_resolution_and_validation flagsNoRegion "cur" "bogus" true true).2.2
      (by decide)⟩

/-- `flagsA` with a default-tags string that is valid JSON but whose
single key violates the provider tag-key constraints. -/
def flagsBadTag : Flags := { flagsA with defaultTagsString := "\x7b\x22env!\x22:\x22prod\x22\x7d" }

/-- `flagsA` with a default-tags string that is not JSON. -/
def flagsBadJson : Flags := { flagsA with defaultTagsString := "not json" }

/-- The configuration produced by a successful startup on `flagsBadTag`. -/
def appBadTag : AppConfig where
  leaseLockName := "lockA"
  leaseLockNamespace := "nsA"
  defaultTags := [("env!", "prod")]
  region := "us-east-1"
  leaseID := "idA"
  watchNamespace := "a"
  annotationPrefixFlag := "aws-ebs-tagger"

/-- C6 counterexample: a default-tags string that is well-formed JSON
but whose key `env!` violates the provider tag-key constraint set does
not cause a fatal startup error — startup succeeds and the invalid
entry flows into the configuration unchanged. -/
theorem C6_invalid_default_tag_not_fatal :
    isValidTagKey "env!" = false ∧
    mainStartup flagsBadTag "cur" "" true true = .ok appBadTag :=
  ⟨by decide, rfl⟩

/-- C6 amended: a non-empty default-tags string is parsed as JSON and
malformed JSON is a fatal startup error, but the parsed entries are not
validated or normalized against the tag key/value constraint set at
startup — whatever the parser returns becomes the default-tag
configuration unchanged. -/
theorem C6_default_tags_parsed_not_validated (fl : Flags) (cns mr : String)
    (ak kk : Bool) (hne : fl.defaultTagsString ≠ "")
    (hname : fl.leaseLockName ≠ "")
    (hns : (if fl.leaseLockNamespace = "" then cns else fl.leaseLockNamespace) ≠ "") :
    (∀ msg, jsonUnmarshalStringMap fl.defaultTagsString = .error msg →
      mainProgram fl cns mr ak kk = .fatal (.invalidDefaultTags msg)) ∧
    (∀ m app, jsonUnmarshalStringMap fl.defaultTagsString = .ok m →
      mainStartup fl cns mr ak kk = .ok app → app.defaultTags = m) := by
  constructor
  · intro msg hmsg
    apply mainProgram_fatal_of_error
    simp [mainStartup, hname, hns, hne, hmsg]
  · intro m app hm h
    obtain ⟨m', hm', happ⟩ := (mainStartup_ok_inversion fl cns mr ak kk app h).2.2.2.2.1
    rw [if_neg hne, hm] at hm'
    cases hm'
    exact happ

theorem C6_default_tags_parsed_not_validated_witness :
    mainProgram flagsBadJson "cur" "" true true =
      .fatal (.invalidDefaultTags "invalid character") ∧
    appBadTag.defaultTags = [("env!", "prod")] :=
  ⟨(C6_default_tags_parsed_not_validated flagsBadJson "cur" "" true true
      (by decide) (by decide) (by decide)).1 "invalid character" rfl,
   (C6_default_tags_parsed_not_validated flagsBadTag "cur" "" true true
      (by decide) (by decide) (by decide)).2 [("env!", "prod")] appBadTag rfl rfl⟩

/-- `flagsA` with the lease-lock-namespace flag and `NAMESPACE` unset. -/
def flagsNoNs : Flags := { flagsA with leaseLockNamespace := "" }

/-- The configuration produced by a successful startup on `flagsNoNs`
when the process runs in namespace `podns`. -/
def appC7 : AppConfig where
  leaseLockName := "lockA"
  leaseLockNamespace := "podns"
  defaultTags := []
  region := "us-east-1"
  leaseID := "idA"
  watchNamespace := "a"
  annotationPrefixFlag := "aws-ebs-tagger"

/-- C7: when the lease-lock namespace is not configured, a successful
startup uses the process namespace in its place; and when that fallback
is also empty, `main` terminates fatally. -/
theorem C7_lease_namespace_fallback (fl : Flags) (cns mr : String) (ak kk : Bool) :
    (fl.leaseLockNamespace = "" → ∀ app, mainStartup fl cns mr ak kk = .ok app →
      app.leaseLockNamespace = cns) ∧
    (fl.leaseLockNamespace = "" → cns = "" →
      ∃ e, mainProgram fl cns mr ak kk = .fatal e) := by
  constructor
  · intro hns app h
    have h3 := (mainStartup_ok_inversion fl cns mr ak kk app h).2.2.1
    rw [h3, if_pos hns]
  · intro hns hcns
    by_cases h1 : fl.leaseLockName = ""
    · exact ⟨.missingLeaseLockName,
        mainProgram_fatal_of_error _ _ _ _ _ _ (by simp [mainStartup, h1])⟩
    · exact ⟨.missingLeaseLockNamespace,
        mainProgram_fatal_of_error _ _ _ _ _ _ (by simp [mainStartup, h1, hns, hcns])⟩

theorem C7_lease_namespace_fallback_witness :
    appC7.leaseLockNamespace = "podns" ∧
    (∃ e, mainProgram flagsNoNs "" "" true true = .fatal e) :=
  ⟨(C7_lease_namespace_fallback flagsNoNs "podns" "" true true).1 rfl appC7 rfl,
   (C7_lease_namespace_fallback flagsNoNs "" "" true true).2 rfl rfl⟩

/-- Command-line inputs that override the lease-id flag. -/
def flagInputsC9 : FlagInputs where
  leaseID := some "operator-chosen"
  region := some "us-east-1"
  leaseLockNamespace := some "nsA"

/-- C9 counterexample: when the operator passes `-lease-id`, the lease
lock identity is the operator-chosen value, not the UUID generated at
process start, so the holder identity is not always a process-start
random value. -/
theorem C9_identity_not_always_generated :
    mainProgram (parseFlags ⟨"", "", ""⟩ "3f1c-generated-uuid" flagInputsC9)
        "cur" "" true true =
      .elect
        { lock := { name := "k8s-aws-ebs-tagger", lockNamespace := "nsA",
                    identity := "operator-chosen" },
          releaseOnCancel := true, leaseDurationSec := 60,
          renewDeadlineSec := 15, retryPeriodSec := 5 }
        [⟨""⟩] ∧
    "operator-chosen" ≠ "3f1c-generated-uuid" :=
  ⟨rfl, by decide⟩

/-- C9 amended: the holder identity defaults to the UUID generated once
at process start when the lease-id flag is absent, may be overridden by
that flag, and in either case is fixed at flag-parse time: the lease
lock used for every acquisition carries exactly the parsed identity. -/
theorem C9_identity_fixed_for_lifetime (e : Env) (u : String) (f : FlagInputs)
    (cfg : AppConfig) (cns mr : String) (ak kk : Bool) :
    (f.leaseID = none → (parseFlags e u f).leaseID = u) ∧
    ((mainLeaderElectionConfig cfg).lock.identity = cfg.leaseID) ∧
    (∀ app, mainStartup (parseFlags e u f) cns mr ak kk = .ok app →
      app.leaseID = (parseFlags e u f).leaseID) := by
  refine ⟨?_, rfl, ?_⟩
  · intro h
    simp [parseFlags, h]
  · intro app h
    exact (mainStartup_ok_inversion _ cns mr ak kk app h).2.2.2.2.2.2.2.1

/-- The configuration produced by a successful startup on all-default
flags with generated UUID `uuid-1`, process namespace `podns` and
metadata region `us-east-1`. -/
def appC9W : AppConfig where
  leaseLockName := "k8s-aws-ebs-tagger"
  leaseLockNamespace := "podns"
  defaultTags := []
  region := "us-east-1"
  leaseID := "uuid-1"
  watchNamespace := ""
  annotationPrefixFlag := "aws-ebs-tagger"

theorem C9_identity_fixed_for_lifetime_witness :
    (parseFlags ⟨"", "", ""⟩ "uuid-1" {}).leaseID = "uuid-1" ∧
    (mainLeaderElectionConfig appC5).lock.identity = appC5.leaseID ∧
    appC9W.leaseID = (parseFlags ⟨"", "", ""⟩ "uuid-1" {}).leaseID :=
  ⟨(C9_identity_fixed_for_lifetime ⟨"", "", ""⟩ "uuid-1" {} appC5 "podns"
      "us-east-1" true true).1 rfl,
   (C9_identity_fixed_for_lifetime ⟨"", "", ""⟩ "uuid-1" {} appC5 "podns"
      "us-east-1" true true).2.1,
   (C9_identity_fixed_for_lifetime ⟨"", "", ""⟩ "uuid-1" {} appC5 "podns"
      "us-east-1" true true).2.2 appC9W rfl⟩

/-- The leader-election configuration reached from `flagInputsC9`. -/
def cfgC10 : LeaderElectionConfig where
  lock := { name := "k8s-aws-ebs-tagger", lockNamespace := "nsA",
            identity := "operator-chosen" }
  releaseOnCancel := true
  leaseDurationSec := 60
  renewDeadlineSec := 15
  retryPeriodSec := 5

/-- C10: the lease-lock-name flag defaults to the non-empty constant
`k8s-aws-ebs-tagger`; an explicitly supplied empty name is a fatal
startup error; and whenever `main` reaches the leader-election stage the
lock name is non-empty. -/
theorem C10_lock_name_nonempty (e : Env) (u : String) (f : FlagInputs)
    (cns mr : String) (ak kk : Bool) :
    (f.leaseLockName = none →
      (parseFlags e u f).leaseLockName = "k8s-aws-ebs-tagger") ∧
    (f.leaseLockName = some "" →
      mainProgram (parseFlags e u f) cns mr ak kk = .fatal .missingLeaseLockName) ∧
    (∀ cfg tasks, mainProgram (parseFlags e u f) cns mr ak kk = .elect cfg tasks →
      cfg.lock.name ≠ "") := by
  refine ⟨?_, ?_, ?_⟩
  · intro h
    simp [parseFlags, h]
  · intro h
    apply mainProgram_fatal_of_error
    simp [mainStartup, parseFlags, h]
  · intro cfg tasks h
    obtain ⟨app, hok, hcfg, -⟩ := mainProgram_elect_inversion _ cns mr ak kk cfg tasks h
    have h1 := (mainStartup_ok_inversion _ cns mr ak kk app hok).1
    have h2 := (mainStartup_ok_inversion _ cns mr ak kk app hok).2.1
    rw [hcfg]
    simpa [mainLeaderElectionConfig, h2] using h1

theorem C10_lock_name_nonempty_witness :
    (parseFlags ⟨"", "", ""⟩ "u" {}).leaseLockName = "k8s-aws-ebs-tagger" ∧
    mainProgram (parseFlags ⟨"", "", ""⟩ "u" { leaseLockName := some "" })
        "cur" "us-east-1" true true = .fatal .missingLeaseLockName ∧
    cfgC10.lock.name ≠ "" :=
  ⟨(C10_lock_name_nonempty ⟨"", "", ""⟩ "u" {} "cur" "us-east-1" true true).1 rfl,
   (C10_lock_name_nonempty ⟨"", "", ""⟩ "u" { leaseLockName := some "" }
      "cur" "us-east-1" true true).2.1 rfl,
   (C10_lock_name_nonempty ⟨"", "", ""⟩ "u" flagInputsC9 "cur" "" true true).2.2
      cfgC10 [⟨""⟩] rfl⟩

end PVCTagger
